import Mathlib

/-!
Shallow embedding of src/audio_server.py (forensic-audio-app).

The embedded pieces are:
  * the static preset catalog `PRESETS`;
  * the filter-chain builder `build_ffmpeg_filter` (and its stage-list core
    `buildFilters`);
  * the request orchestration `process_audio_file` / `process_audio`,
    modelled over an explicit environment describing the outcomes of the
    external tool invocations (ffprobe / ffmpeg) and of the filesystem;
  * the scratch-path derivation of the `/process` endpoint.

Numeric preset fields are modelled as rationals (the Python values are
small decimal literals, exact in ℚ).  A `FilterStage` is the structured
form of one comma-separated element of the ffmpeg `-af` argument; the
textual rendering of a stage is an external-interface concern and is not
modelled, but every parameter the source interpolates into a stage string
is a field of the corresponding constructor, in source order.
-/

namespace AudioServer

/-- One equalizer band of a preset: a freq/gain dict entry. -/
structure EqBand where
  freq : ℚ
  gain : ℚ
  deriving DecidableEq

/-- The tuning fields of a preset that `build_ffmpeg_filter` reads.
The Python dicts also carry name and description strings, which the
builder never reads; they are omitted. -/
structure Preset where
  highpass : ℚ
  lowpass : ℚ
  noise_reduction : ℚ
  dynamic_boost : ℚ
  voice_emphasis : ℚ
  eq_bands : List EqBand
  deriving DecidableEq

/-- Catalog entry PRESETS["whisper"] (src/audio_server.py lines 44-58). -/
def whisperPreset : Preset :=
  { highpass := 30, lowpass := 3500, noise_reduction := 0.5,
    dynamic_boost := 8, voice_emphasis := 4,
    eq_bands := [⟨100, -3⟩, ⟨300, 2⟩, ⟨1000, 3⟩, ⟨2000, 2⟩] }

/-- Catalog entry PRESETS["breath"] (lines 59-72). -/
def breathPreset : Preset :=
  { highpass := 100, lowpass := 2000, noise_reduction := 0.3,
    dynamic_boost := 12, voice_emphasis := 2,
    eq_bands := [⟨200, 2⟩, ⟨500, 3⟩, ⟨1000, 2⟩] }

/-- Catalog entry PRESETS["vocal"] (lines 73-87). -/
def vocalPreset : Preset :=
  { highpass := 80, lowpass := 8000, noise_reduction := 0.4,
    dynamic_boost := 6, voice_emphasis := 5,
    eq_bands := [⟨150, 1⟩, ⟨400, 3⟩, ⟨1000, 4⟩, ⟨2000, 3⟩] }

/-- Catalog entry PRESETS["tv_suppress"] (lines 88-103). -/
def tvSuppressPreset : Preset :=
  { highpass := 200, lowpass := 4000, noise_reduction := 0.6,
    dynamic_boost := 10, voice_emphasis := 6,
    eq_bands := [⟨60, -8⟩, ⟨120, -5⟩, ⟨500, 4⟩, ⟨1500, 5⟩, ⟨3000, 3⟩] }

/-- Catalog entry PRESETS["clean_whisper"] (lines 104-117). -/
def cleanWhisperPreset : Preset :=
  { highpass := 50, lowpass := 4000, noise_reduction := 0.2,
    dynamic_boost := 4, voice_emphasis := 2,
    eq_bands := [⟨250, 2⟩, ⟨500, 3⟩, ⟨1000, 2⟩] }

/-- Catalog entry PRESETS["gentle_enhance"] (lines 118-130). -/
def gentleEnhancePreset : Preset :=
  { highpass := 40, lowpass := 6000, noise_reduction := 0.1,
    dynamic_boost := 2, voice_emphasis := 1,
    eq_bands := [⟨300, 1⟩, ⟨1000, 2⟩] }

/-- The module-level PRESETS dict (lines 43-131), as an association list
in source order. -/
def PRESETS : List (String × Preset) :=
  [("whisper", whisperPreset),
   ("breath", breathPreset),
   ("vocal", vocalPreset),
   ("tv_suppress", tvSuppressPreset),
   ("clean_whisper", cleanWhisperPreset),
   ("gentle_enhance", gentleEnhancePreset)]

/-- Membership test plus indexing on an association-list catalog: the
Python preset_name in PRESETS check together with PRESETS[preset_name]. -/
def lookup (catalog : List (String × Preset)) (name : String) : Option Preset :=
  (catalog.find? (fun entry => entry.1 == name)).map (fun entry => entry.2)

/-- Catalog lookup against the global `PRESETS`. -/
def lookupPreset (name : String) : Option Preset :=
  lookup PRESETS name

/-- One element of the comma-separated ffmpeg -af filter chain, in the
structured form the builder parameterizes.  Constructor arguments follow
the key order of the corresponding f-string in the source:
  * `highpass f`                    for highpass with cutoff f (line 149)
  * `lowpass f`                     for lowpass with cutoff f (line 153)
  * `afftdn nr nf`                  for noise reduction, fixed nf = -20 and
                                    a fixed window-type flag nt=w (line 159)
  * `acompressor th ratio a r m k`  for the compressor with threshold th in
                                    dB, ratio, attack 10, release 100,
                                    makeup 2, knee 2 (line 166)
  * `equalizer f g w`               for an equalizer band at frequency f
                                    with gain g, octave width type, and an
                                    optional width parameter: `w = none`
                                    for EQ-band stages (line 173),
                                    `w = some 800` for the voice-emphasis
                                    stage (line 180)
  * `alimiter lin lout lim`         for the limiter, level_in 1,
                                    level_out 0.95, limit 0.95 (line 183)
  * `volume v`                      for the fixed gain, v = 1.2 (line 186) -/
inductive FilterStage where
  | highpass (f : ℚ)
  | lowpass (f : ℚ)
  | afftdn (nr : ℚ) (nf : ℚ)
  | acompressor (threshold : ℚ) (ratio : ℚ) (attack : ℚ) (release : ℚ)
      (makeup : ℚ) (knee : ℚ)
  | equalizer (f : ℚ) (g : ℚ) (w : Option ℚ)
  | alimiter (level_in : ℚ) (level_out : ℚ) (limit : ℚ)
  | volume (v : ℚ)
  deriving DecidableEq

/-- The EQ-gain clamp of line 172: max of -10 and the min of 10 and the
stored band gain. -/
def clampGain (g : ℚ) : ℚ := max (-10) (min 10 g)

/-- The body of `build_ffmpeg_filter` after the preset value is in hand
(lines 145-188): the successive filters.append calls, in order.  The
source guards the EQ loop with a truthiness test on eq_bands; on an empty
list the guard skips a loop that would do nothing, so both behave as the
`List.map`. -/
def buildFilters (preset : Preset) : List FilterStage :=
  (if 0 < preset.highpass then [FilterStage.highpass preset.highpass] else []) ++
  (if 0 < preset.lowpass then [FilterStage.lowpass preset.lowpass] else []) ++
  (if 0 < preset.noise_reduction then
    [FilterStage.afftdn preset.noise_reduction (-20)] else []) ++
  (if 0 < preset.dynamic_boost then
    [FilterStage.acompressor (-25 + preset.dynamic_boost / 4)
      (2 + preset.dynamic_boost / 10) 10 100 2 2] else []) ++
  (preset.eq_bands.map (fun band => FilterStage.equalizer band.freq (clampGain band.gain) none)) ++
  (if 0 < preset.voice_emphasis then
    [FilterStage.equalizer 1000 (min 6 preset.voice_emphasis) (some 800)] else []) ++
  [FilterStage.alimiter 1 0.95 0.95] ++
  [FilterStage.volume 1.2]

/-- The optional (trigger-guarded) stages 1-6 of `buildFilters`, used to
name the part of the chain that precedes the two unconditional stages. -/
def optionalStages (preset : Preset) : List FilterStage :=
  (if 0 < preset.highpass then [FilterStage.highpass preset.highpass] else []) ++
  (if 0 < preset.lowpass then [FilterStage.lowpass preset.lowpass] else []) ++
  (if 0 < preset.noise_reduction then
    [FilterStage.afftdn preset.noise_reduction (-20)] else []) ++
  (if 0 < preset.dynamic_boost then
    [FilterStage.acompressor (-25 + preset.dynamic_boost / 4)
      (2 + preset.dynamic_boost / 10) 10 100 2 2] else []) ++
  (preset.eq_bands.map (fun band => FilterStage.equalizer band.freq (clampGain band.gain) none)) ++
  (if 0 < preset.voice_emphasis then
    [FilterStage.equalizer 1000 (min 6 preset.voice_emphasis) (some 800)] else [])

/-- The per-field custom_params dict that may be merged over a preset:
each field is either absent or supplies a replacement value. -/
structure Overrides where
  highpass : Option ℚ := none
  lowpass : Option ℚ := none
  noise_reduction : Option ℚ := none
  dynamic_boost : Option ℚ := none
  voice_emphasis : Option ℚ := none
  eq_bands : Option (List EqBand) := none
  deriving DecidableEq

/-- The preset.update(custom_params) merge applied to the copy of the base
preset (lines 139-143): each key present in the override dict replaces the
copied value, absent keys keep it. -/
def applyOverrides (p : Preset) (o : Overrides) : Preset :=
  { highpass := o.highpass.getD p.highpass,
    lowpass := o.lowpass.getD p.lowpass,
    noise_reduction := o.noise_reduction.getD p.noise_reduction,
    dynamic_boost := o.dynamic_boost.getD p.dynamic_boost,
    voice_emphasis := o.voice_emphasis.getD p.voice_emphasis,
    eq_bands := o.eq_bands.getD p.eq_bands }

/-- The function build_ffmpeg_filter(preset_name, custom_params)
(lines 133-188), with the catalog passed as explicit state.  The source
raises ValueError with an Unknown preset message when the name is absent:
modelled as `none`.  Otherwise it takes a copy of the catalog entry,
merges the overrides over the copy, and renders the stage list; the
returned second component is the catalog after the call (the source
mutates only the copy, never the stored entry). -/
def build_ffmpeg_filter (catalog : List (String × Preset)) (preset_name : String)
    (custom_params : Option Overrides) :
    Option (List FilterStage) × List (String × Preset) :=
  match lookup catalog preset_name with
  | none => (none, catalog)
  | some base =>
      let preset := match custom_params with
        | none => base
        | some o => applyOverrides base o
      (some (buildFilters preset), catalog)

/-- Outcome of the external-tool invocations and of the filesystem for one
request, from the point of view of the handler: the data the subprocess
calls and Path queries in the source would report. -/
structure ExtEnv where
  /-- the ffmpeg availability check of lines 691-694 succeeds. -/
  ffmpegAvailable : Bool
  /-- the ffprobe return code (lines 207-208). -/
  probeExit : Int
  /-- the ffprobe stderr text, interpolated into the failure message. -/
  probeStderr : String
  /-- the JSON and duration parse of lines 211-212 succeeds. -/
  durationParsed : Bool
  /-- the ffmpeg transform return code (lines 230-232). -/
  transformExit : Int
  /-- the ffmpeg stderr text, interpolated into the failure message. -/
  transformStderr : String
  /-- the transform run leaves a file at the output path (line 239). -/
  outputCreated : Bool
  /-- the output file size in bytes (lines 245, 709). -/
  outputSize : Nat
  /-- the unlink of the input path in the finally block raises
  (lines 729-733). -/
  inputUnlinkFails : Bool
  deriving DecidableEq

/-- Result of `process_audio_file`: the success dict (whose relevant
payload is the filter chain it echoes back) or the error string of the
failure dict. -/
inductive ProcOutcome where
  | ok (chain : List FilterStage)
  | err (detail : String)
  deriving DecidableEq

/-- Outcome of `process_audio_file` together with whether the external
transform tool (the ffmpeg encode of lines 218-230) was invoked. -/
structure ProcTrace where
  outcome : ProcOutcome
  transformInvoked : Bool
  deriving DecidableEq

/-- The coroutine process_audio_file(input_path, output_path, preset_name,
custom_params) (lines 190-261), step for step:
  1. run ffprobe; non-zero exit raises an exception carrying the message
     `Failed to analyze input file: ` with the probe stderr appended;
  2. parse the probe JSON and its duration; a parse failure raises;
  3. `build_ffmpeg_filter` runs next — an unknown preset raises ValueError
     with `Unknown preset: ` and the name, before ffmpeg runs;
  4. run the ffmpeg transform; non-zero exit raises an exception carrying
     `FFmpeg processing failed: ` with the transform stderr appended;
  5. a missing output file raises an exception carrying
     `Output file was not created: ` with the output path appended.
Every raise is caught by the enclosing except clause and returned as a
failure dict, modelled as `ProcOutcome.err` with the message. -/
def process_audio_file (env : ExtEnv) (outPath : String) (preset_name : String)
    (custom_params : Option Overrides) : ProcTrace :=
  if env.probeExit ≠ 0 then
    ⟨.err ("Failed to analyze input file: " ++ env.probeStderr), false⟩
  else if env.durationParsed = false then
    ⟨.err "invalid probe metadata", false⟩
  else
    match (build_ffmpeg_filter PRESETS preset_name custom_params).1 with
    | none => ⟨.err ("Unknown preset: " ++ preset_name), false⟩
    | some chain =>
        if env.transformExit ≠ 0 then
          ⟨.err ("FFmpeg processing failed: " ++ env.transformStderr), true⟩
        else if env.outputCreated = false then
          ⟨.err ("Output file was not created: " ++ outPath), true⟩
        else
          ⟨.ok chain, true⟩

/-- What the /process endpoint hands back: a streamed FileResponse (media
type and suggested download filename) or an HTTPException (status code and
detail string). -/
inductive Response where
  | fileOut (mediaType : String) (filename : String)
  | errorOut (status : Nat) (detail : String)
  deriving DecidableEq

/-- Whether the scratch input and output files exist once the request is
over. -/
structure ScratchState where
  inputExists : Bool
  outputExists : Bool
  deriving DecidableEq

/-- The scratch directory TEMP_DIR (line 39). -/
def TEMP_DIR : String := "/tmp/audio_processing"

/-- The scratch input location of line 678: TEMP_DIR joined with the
f-string input_ timestamp _ filename — the raw upload filename is
interpolated, unsanitized. -/
def inputPathFor (timestamp : String) (filename : String) : String :=
  TEMP_DIR ++ "/" ++ ("input_" ++ timestamp ++ "_" ++ filename)

/-- The scratch output location of line 679: TEMP_DIR joined with the
f-string output_ timestamp .wav. -/
def outputPathFor (timestamp : String) : String :=
  TEMP_DIR ++ "/" ++ ("output_" ++ timestamp ++ ".wav")

/-- A wall-clock instant as datetime.now() reports it.  The microsecond
field exists on the Python value but is dropped by the strftime format
used at line 677. -/
structure DateTime where
  year : Nat
  month : Nat
  day : Nat
  hour : Nat
  minute : Nat
  second : Nat
  microsecond : Nat
  deriving DecidableEq

/-- Zero-pad a numeral to two digits, as strftime does for the month, day,
hour, minute and second fields. -/
def pad2 (n : Nat) : String :=
  if n < 10 then "0" ++ toString n else toString n

/-- Zero-pad a numeral to four digits, as strftime does for the year. -/
def pad4 (n : Nat) : String :=
  if n < 10 then "000" ++ toString n
  else if n < 100 then "00" ++ toString n
  else if n < 1000 then "0" ++ toString n
  else toString n

/-- The timestamp datetime.now().strftime("%Y%m%d_%H%M%S") of line 677:
second granularity; the microsecond field does not appear in the
output. -/
def strftimeCompact (t : DateTime) : String :=
  pad4 t.year ++ pad2 t.month ++ pad2 t.day ++ "_" ++
    pad2 t.hour ++ pad2 t.minute ++ pad2 t.second

/-- One /process request as received: its arrival instant, the
client-supplied upload filename, and the uploaded bytes. -/
structure UploadRequest where
  now : DateTime
  filename : String
  content : List Nat
  deriving DecidableEq

/-- The scratch input location the endpoint derives for a request
(lines 677-678). -/
def derivedInputPath (r : UploadRequest) : String :=
  inputPathFor (strftimeCompact r.now) r.filename

/-- The /process endpoint body process_audio(file, preset)
(lines 669-733) after the upload has been written to the scratch input:
the ffmpeg availability check, the call to `process_audio_file` (with
custom_params left at None), the output existence and non-emptiness
checks, the FileResponse, and the finally block that unlinks the scratch
input inside its own nested try with a bare except pass.  No statement
ever unlinks the output path.  Returns the response and the scratch state
after the request: the output file is on disk iff the transform tool ran
and created it (when the availability check fails the handler raises
before `process_audio_file` is ever called, so no tool runs — hence the
ffmpegAvailable guard on the final output state). -/
def process_audio (env : ExtEnv) (now : DateTime) (preset : String)
    (uploadFilename : String) : Response × ScratchState :=
  let timestamp := strftimeCompact now
  let outPath := outputPathFor timestamp
  let tr := process_audio_file env outPath preset none
  let resp : Response :=
    if env.ffmpegAvailable = false then
      .errorOut 500 "FFmpeg is not installed or not working"
    else
      match tr.outcome with
      | .err d => .errorOut 500 d
      | .ok _ =>
          if (tr.transformInvoked && env.outputCreated) = false then
            .errorOut 500 "Output file was not created"
          else if env.outputSize = 0 then
            .errorOut 500 "Output file is empty"
          else
            .fileOut "audio/wav" ("processed_" ++ uploadFilename)
  (resp,
   { inputExists := env.inputUnlinkFails,
     outputExists := env.ffmpegAvailable && (tr.transformInvoked && env.outputCreated) })

/-- Lexical resolution of one path component against a stack of enclosing
directory names (deepest first): a parent component pops, a current-dir or
empty component is ignored. -/
def resolveStep (stack : List String) (comp : String) : List String :=
  if comp = "" ∨ comp = "." then stack
  else if comp = ".." then stack.tail
  else comp :: stack

/-- Split a character list at every slash, accumulating the current
component in reverse. -/
def splitSlashAux : List Char → List Char → List String
  | [], acc => [String.mk acc.reverse]
  | c :: rest, acc =>
      if c = '/' then String.mk acc.reverse :: splitSlashAux rest []
      else splitSlashAux rest (c :: acc)

/-- The slash-separated components of a path string. -/
def splitSlash (s : String) : List String := splitSlashAux s.data []

/-- Lexical resolution of an absolute path: the directory-name list from
the root, after eliminating current-dir and parent-dir components. -/
def resolvePath (s : String) : List String :=
  ((splitSlash s).foldl resolveStep []).reverse

/-- Whether an absolute path stays inside the scratch directory
/tmp/audio_processing after lexical resolution. -/
def insideScratch (s : String) : Bool :=
  (resolvePath s).take 2 == ["tmp", "audio_processing"]

/-! Helper lemmas shared by the claim theorems. -/

lemma mem_if_nil {α : Type} (a : α) (c : Prop) [Decidable c] (l : List α) :
    (a ∈ if c then l else []) ↔ c ∧ a ∈ l := by
  by_cases h : c <;> simp [h]

lemma buildFilters_eq_optional (p : Preset) :
    buildFilters p = optionalStages p ++
      [FilterStage.alimiter 1 0.95 0.95, FilterStage.volume 1.2] := by
  unfold buildFilters optionalStages
  simp [List.append_assoc]

lemma cleanWhisper_chain_eq :
    (build_ffmpeg_filter PRESETS "clean_whisper" none).1 = some
      [FilterStage.highpass 50, FilterStage.lowpass 4000,
       FilterStage.afftdn 0.2 (-20),
       FilterStage.acompressor (-24) 2.4 10 100 2 2,
       FilterStage.equalizer 250 2 none, FilterStage.equalizer 500 3 none,
       FilterStage.equalizer 1000 2 none,
       FilterStage.equalizer 1000 2 (some 800),
       FilterStage.alimiter 1 0.95 0.95, FilterStage.volume 1.2] := by
  have h : (build_ffmpeg_filter PRESETS "clean_whisper" none).1 =
      some (buildFilters cleanWhisperPreset) := rfl
  rw [h]
  norm_num [buildFilters, cleanWhisperPreset, clampGain, min_def, max_def]

lemma paf_probe_fail (env : ExtEnv) (outPath name : String) (ov : Option Overrides)
    (hp : env.probeExit ≠ 0) :
    process_audio_file env outPath name ov =
      ⟨.err ("Failed to analyze input file: " ++ env.probeStderr), false⟩ := by
  unfold process_audio_file
  simp [hp]

lemma paf_duration_fail (env : ExtEnv) (outPath name : String) (ov : Option Overrides)
    (hp : env.probeExit = 0) (hd : env.durationParsed = false) :
    process_audio_file env outPath name ov =
      ⟨.err "invalid probe metadata", false⟩ := by
  unfold process_audio_file
  simp [hp, hd]

lemma process_audio_file_unknown (env : ExtEnv) (outPath name : String)
    (ov : Option Overrides) (h : lookup PRESETS name = none) :
    process_audio_file env outPath name ov =
      if env.probeExit ≠ 0 then
        ⟨.err ("Failed to analyze input file: " ++ env.probeStderr), false⟩
      else if env.durationParsed = false then
        ⟨.err "invalid probe metadata", false⟩
      else
        ⟨.err ("Unknown preset: " ++ name), false⟩ := by
  unfold process_audio_file build_ffmpeg_filter
  rw [h]

lemma paf_known (env : ExtEnv) (outPath name : String) (ov : Option Overrides)
    (base : Preset) (h : lookup PRESETS name = some base)
    (hp : env.probeExit = 0) (hd : env.durationParsed = true) :
    process_audio_file env outPath name ov =
      if env.transformExit ≠ 0 then
        ⟨.err ("FFmpeg processing failed: " ++ env.transformStderr), true⟩
      else if env.outputCreated = false then
        ⟨.err ("Output file was not created: " ++ outPath), true⟩
      else
        ⟨.ok (buildFilters (match ov with
          | none => base
          | some o => applyOverrides base o)), true⟩ := by
  unfold process_audio_file build_ffmpeg_filter
  rw [h]
  simp [hp, hd]

lemma paf_ok_inv (env : ExtEnv) (outPath name : String) (ov : Option Overrides)
    (chain : List FilterStage)
    (h : (process_audio_file env outPath name ov).outcome = ProcOutcome.ok chain) :
    env.probeExit = 0 ∧ env.durationParsed = true ∧ env.transformExit = 0 ∧
      env.outputCreated = true ∧
      (process_audio_file env outPath name ov).transformInvoked = true := by
  by_cases hp : env.probeExit = 0
  · by_cases hd : env.durationParsed = true
    · cases hlk : lookup PRESETS name with
      | none =>
          rw [process_audio_file_unknown env outPath name ov hlk] at h
          simp [hp, hd] at h
      | some base =>
          rw [paf_known env outPath name ov base hlk hp hd] at h
          by_cases ht : env.transformExit ≠ 0
          · simp [ht] at h
          · by_cases hc : env.outputCreated = false
            · simp [ht, hc] at h
            · refine ⟨hp, hd, by omega, by simpa using hc, ?_⟩
              rw [paf_known env outPath name ov base hlk hp hd]
              simp [ht, hc]
    · rw [paf_duration_fail env outPath name ov hp (by simpa using hd)] at h
      simp at h
  · rw [paf_probe_fail env outPath name ov hp] at h
    simp at h

lemma process_audio_eq (env : ExtEnv) (now : DateTime) (preset fname : String)
    (hav : env.ffmpegAvailable = true) :
    process_audio env now preset fname =
      ((match (process_audio_file env (outputPathFor (strftimeCompact now)) preset none).outcome with
        | .err d => Response.errorOut 500 d
        | .ok _ =>
            if ((process_audio_file env (outputPathFor (strftimeCompact now)) preset none).transformInvoked &&
                env.outputCreated) = false then
              Response.errorOut 500 "Output file was not created"
            else if env.outputSize = 0 then
              Response.errorOut 500 "Output file is empty"
            else Response.fileOut "audio/wav" ("processed_" ++ fname)),
       ⟨env.inputUnlinkFails,
        (process_audio_file env (outputPathFor (strftimeCompact now)) preset none).transformInvoked &&
          env.outputCreated⟩) := by
  unfold process_audio
  simp [hav]

lemma inputPathFor_inj (t1 t2 f1 f2 : String) (hlen : t1.length = t2.length) :
    inputPathFor t1 f1 = inputPathFor t2 f2 ↔ (t1 = t2 ∧ f1 = f2) := by
  constructor
  · intro h
    have hd : ("/tmp/audio_processing/input_".data ++ (t1.data ++ ("_".data ++ f1.data))) =
        ("/tmp/audio_processing/input_".data ++ (t2.data ++ ("_".data ++ f2.data))) := by
      have := congrArg String.data h
      simpa [inputPathFor, TEMP_DIR, String.data_append, List.append_assoc] using this
    have hd2 := List.append_cancel_left hd
    have hlen' : t1.data.length = t2.data.length := hlen
    obtain ⟨ht, hf⟩ := List.append_inj hd2 hlen'
    have hf2 : f1.data = f2.data := List.append_cancel_left hf
    exact ⟨String.ext ht, String.ext hf2⟩
  · rintro ⟨rfl, rfl⟩
    rfl

/-! The claim theorems. -/

/-- C1: for every preset — any combination of trigger fields, including
all triggers false — the chain `buildFilters` returns ends with exactly
the limiter stage followed by the fixed output-gain stage as its last two
stages, hence is never empty; and a preset with zero highpass, lowpass,
noise reduction, dynamic boost and voice emphasis and no equalizer bands
yields exactly those two stages. -/
theorem build_chain_ends_limiter_gain (p : Preset) :
    (∃ pre, buildFilters p =
      pre ++ [FilterStage.alimiter 1 0.95 0.95, FilterStage.volume 1.2]) ∧
    buildFilters p ≠ [] ∧
    (p.highpass = 0 → p.lowpass = 0 → p.noise_reduction = 0 →
      p.dynamic_boost = 0 → p.voice_emphasis = 0 → p.eq_bands = [] →
      buildFilters p =
        [FilterStage.alimiter 1 0.95 0.95, FilterStage.volume 1.2]) := by
  refine ⟨⟨optionalStages p, buildFilters_eq_optional p⟩, ?_, ?_⟩
  · intro hnil
    rw [buildFilters_eq_optional p] at hnil
    simp at hnil
  · intro h1 h2 h3 h4 h5 h6
    simp [buildFilters, h1, h2, h3, h4, h5, h6]

/-- Witness for C1 at the all-zero preset. -/
theorem build_chain_ends_limiter_gain_witness :
    buildFilters ⟨0, 0, 0, 0, 0, []⟩ =
      [FilterStage.alimiter 1 0.95 0.95, FilterStage.volume 1.2] :=
  (build_chain_ends_limiter_gain ⟨0, 0, 0, 0, 0, []⟩).2.2 rfl rfl rfl rfl rfl rfl

/-- C2, counterexample: the chain built for the catalog preset
clean_whisper has 10 stages, not 9 as the claim counts — the listed
sequence highpass, lowpass, noise-reduction, compressor, three EQ bands,
voice-emphasis, limiter, fixed-gain adds up to ten stages. -/
theorem clean_whisper_not_nine_stages :
    (build_ffmpeg_filter PRESETS "clean_whisper" none).1.map List.length = some 10 ∧
    (build_ffmpeg_filter PRESETS "clean_whisper" none).1.map List.length ≠ some 9 := by
  rw [cleanWhisper_chain_eq]
  exact ⟨rfl, by decide⟩

/-- C2, amended: the chain built for clean_whisper (highpass 50,
lowpass 4000, noise reduction 0.2, dynamic boost 4, voice emphasis 2,
three EQ bands) is exactly highpass, lowpass, noise-reduction, compressor
(threshold -24 dB, ratio 2.4), the three EQ stages, voice-emphasis with
gain 2, limiter, fixed gain — 10 stages, in that order. -/
theorem clean_whisper_chain_ten_stages :
    (build_ffmpeg_filter PRESETS "clean_whisper" none).1 = some
      [FilterStage.highpass 50, FilterStage.lowpass 4000,
       FilterStage.afftdn 0.2 (-20),
       FilterStage.acompressor (-24) 2.4 10 100 2 2,
       FilterStage.equalizer 250 2 none, FilterStage.equalizer 500 3 none,
       FilterStage.equalizer 1000 2 none,
       FilterStage.equalizer 1000 2 (some 800),
       FilterStage.alimiter 1 0.95 0.95, FilterStage.volume 1.2] :=
  cleanWhisper_chain_eq

/-- C3: for every equalizer band of a preset, the built chain contains the
equalizer stage whose gain is the stored gain clamped to the interval from
-10 to 10; the clamped value always lies in that interval, equals the
boundary when the stored gain is out of range, and then differs from the
raw stored value. -/
theorem eq_band_gain_clamped (p : Preset) (b : EqBand) (hb : b ∈ p.eq_bands) :
    FilterStage.equalizer b.freq (clampGain b.gain) none ∈ buildFilters p ∧
    -10 ≤ clampGain b.gain ∧ clampGain b.gain ≤ 10 ∧
    (10 < b.gain → clampGain b.gain = 10) ∧
    (b.gain < -10 → clampGain b.gain = -10) ∧
    (b.gain < -10 ∨ 10 < b.gain → clampGain b.gain ≠ b.gain) := by
  refine ⟨?_, le_max_left _ _, ?_, ?_, ?_, ?_⟩
  · have hmem : FilterStage.equalizer b.freq (clampGain b.gain) none ∈
        p.eq_bands.map (fun band =>
          FilterStage.equalizer band.freq (clampGain band.gain) none) :=
      List.mem_map_of_mem _ hb
    simp only [buildFilters, List.mem_append]
    tauto
  · exact max_le (by norm_num) (min_le_left _ _)
  · intro h
    rw [clampGain, min_eq_left h.le, max_eq_right (by norm_num : (-10:ℚ) ≤ 10)]
  · intro h
    rw [clampGain, min_eq_right (le_of_lt (lt_trans h (by norm_num))),
      max_eq_left h.le]
  · rintro (h | h)
    · rw [clampGain, min_eq_right (le_of_lt (lt_trans h (by norm_num))),
        max_eq_left h.le]
      exact fun he => absurd he.symm (ne_of_lt h)
    · rw [clampGain, min_eq_left h.le, max_eq_right (by norm_num : (-10:ℚ) ≤ 10)]
      exact fun he => absurd he (ne_of_lt h)

/-- Witness for C3 at a band whose stored gain 15 lies above the range. -/
theorem eq_band_gain_clamped_witness :
    FilterStage.equalizer 100 (clampGain 15) none ∈
      buildFilters ⟨0, 0, 0, 0, 0, [⟨100, 15⟩]⟩ ∧
    -10 ≤ clampGain 15 ∧ clampGain 15 ≤ 10 ∧
    (10 < (15:ℚ) → clampGain 15 = 10) ∧
    ((15:ℚ) < -10 → clampGain 15 = -10) ∧
    ((15:ℚ) < -10 ∨ 10 < (15:ℚ) → clampGain 15 ≠ 15) :=
  eq_band_gain_clamped ⟨0, 0, 0, 0, 0, [⟨100, 15⟩]⟩ ⟨100, 15⟩ (List.Mem.head _)

/-- C4: for a preset name outside the catalog, chain-building yields no
chain (no default preset substituted), the external transform tool is
never invoked, the request never succeeds, and — once the earlier probe
steps pass — the failure carries the Unknown preset message. -/
theorem unknown_preset_no_transform (env : ExtEnv) (outPath name : String)
    (ov : Option Overrides) (h : lookupPreset name = none) :
    (build_ffmpeg_filter PRESETS name ov).1 = none ∧
    (process_audio_file env outPath name ov).transformInvoked = false ∧
    (∀ chain, (process_audio_file env outPath name ov).outcome ≠ ProcOutcome.ok chain) ∧
    (env.probeExit = 0 → env.durationParsed = true →
      (process_audio_file env outPath name ov).outcome =
        ProcOutcome.err ("Unknown preset: " ++ name)) := by
  have h' : lookup PRESETS name = none := h
  have hb : (build_ffmpeg_filter PRESETS name ov).1 = none := by
    unfold build_ffmpeg_filter; rw [h']
  rw [process_audio_file_unknown env outPath name ov h']
  refine ⟨hb, ?_, ?_, ?_⟩
  · split <;> [rfl; (split <;> rfl)]
  · intro chain
    split <;> [simp; (split <;> simp)]
  · intro hp hd
    simp [hp, hd]

/-- Witness for C4 at the preset name nonexistent with healthy probe. -/
theorem unknown_preset_no_transform_witness :
    (process_audio_file ⟨true, 0, "", true, 0, "", true, 5, false⟩
        "/tmp/audio_processing/output_x.wav" "nonexistent" none).transformInvoked = false ∧
    (process_audio_file ⟨true, 0, "", true, 0, "", true, 5, false⟩
        "/tmp/audio_processing/output_x.wav" "nonexistent" none).outcome =
      ProcOutcome.err ("Unknown preset: " ++ "nonexistent") :=
  ⟨(unknown_preset_no_transform ⟨true, 0, "", true, 0, "", true, 5, false⟩
      "/tmp/audio_processing/output_x.wav" "nonexistent" none (by rfl)).2.1,
   (unknown_preset_no_transform ⟨true, 0, "", true, 0, "", true, 5, false⟩
      "/tmp/audio_processing/output_x.wav" "nonexistent" none (by rfl)).2.2.2 rfl rfl⟩

/-- C5, counterexample: a fully healthy request completes — the response
is the streamed file — yet the scratch output file still exists afterward
(while the scratch input is gone): the handler never deletes the output,
contradicting the claim that it is deleted after streaming. -/
theorem output_survives_completed_request :
    (process_audio ⟨true, 0, "", true, 0, "", true, 5, false⟩
        ⟨2025, 1, 1, 0, 0, 0, 0⟩ "whisper" "a.mp3").1 =
      Response.fileOut "audio/wav" "processed_a.mp3" ∧
    (process_audio ⟨true, 0, "", true, 0, "", true, 5, false⟩
        ⟨2025, 1, 1, 0, 0, 0, 0⟩ "whisper" "a.mp3").2 =
      { inputExists := false, outputExists := true } := by
  constructor <;> decide

/-- C5, amended: on any terminal outcome the scratch input is deleted
exactly when its unlink does not itself fail, a cleanup failure never
changes the response handed to the caller, and the scratch output is
never deleted — it remains on disk whenever the transform tool ran and
created it, on success and on failure alike. -/
theorem cleanup_deletes_input_only (env : ExtEnv) (now : DateTime)
    (preset fname : String) :
    (process_audio env now preset fname).2.inputExists = env.inputUnlinkFails ∧
    (process_audio env now preset fname).2.outputExists =
      (env.ffmpegAvailable &&
        ((process_audio_file env (outputPathFor (strftimeCompact now)) preset none).transformInvoked &&
          env.outputCreated)) ∧
    (process_audio { env with inputUnlinkFails := true } now preset fname).1 =
      (process_audio env now preset fname).1 :=
  ⟨rfl, rfl, rfl⟩

/-- C6: a request succeeds (returns the streamed file) only if the
transform tool exited zero, the output path exists and the output file is
non-empty; and when the transform step is reached and one of those
conditions fails, the response is the corresponding error carrying the
diagnostic output of the tool — never the file. -/
theorem success_requires_transform_ok (env : ExtEnv) (now : DateTime)
    (preset fname : String) :
    (∀ mt f, (process_audio env now preset fname).1 = Response.fileOut mt f →
      env.transformExit = 0 ∧ env.outputCreated = true ∧ env.outputSize ≠ 0) ∧
    (env.ffmpegAvailable = true → env.probeExit = 0 → env.durationParsed = true →
      (lookupPreset preset).isSome = true →
      (env.transformExit ≠ 0 →
        (process_audio env now preset fname).1 =
          Response.errorOut 500 ("FFmpeg processing failed: " ++ env.transformStderr)) ∧
      (env.transformExit = 0 → env.outputCreated = false →
        (process_audio env now preset fname).1 =
          Response.errorOut 500 ("Output file was not created: " ++
            outputPathFor (strftimeCompact now))) ∧
      (env.transformExit = 0 → env.outputCreated = true → env.outputSize = 0 →
        (process_audio env now preset fname).1 =
          Response.errorOut 500 "Output file is empty")) := by
  constructor
  · intro mt f hresp
    by_cases hav : env.ffmpegAvailable = true
    · rw [process_audio_eq env now preset fname hav] at hresp
      rcases ho : (process_audio_file env (outputPathFor (strftimeCompact now)) preset none).outcome
        with chain | d
      · rw [ho] at hresp
        obtain ⟨hp, hd, ht, hc, hti⟩ :=
          paf_ok_inv env (outputPathFor (strftimeCompact now)) preset none chain ho
        refine ⟨ht, hc, ?_⟩
        intro hsz
        simp [hti, hc, hsz] at hresp
      · rw [ho] at hresp
        simp at hresp
    · unfold process_audio at hresp
      simp [Bool.not_eq_true] at hav
      simp [hav] at hresp
  · intro hav hp hd hsome
    obtain ⟨base, hbase⟩ := Option.isSome_iff_exists.mp hsome
    have hbase' : lookup PRESETS preset = some base := hbase
    refine ⟨?_, ?_, ?_⟩
    · intro ht
      rw [process_audio_eq env now preset fname hav,
        paf_known env (outputPathFor (strftimeCompact now)) preset none base hbase' hp hd]
      simp [ht]
    · intro ht hc
      rw [process_audio_eq env now preset fname hav,
        paf_known env (outputPathFor (strftimeCompact now)) preset none base hbase' hp hd]
      simp [ht, hc]
    · intro ht hc hsz
      rw [process_audio_eq env now preset fname hav,
        paf_known env (outputPathFor (strftimeCompact now)) preset none base hbase' hp hd]
      simp [ht, hc, hsz]

/-- Witness for C6: a transform exiting with code 1 produces the FFmpeg
processing failure response carrying the captured stderr. -/
theorem success_requires_transform_ok_witness :
    (process_audio ⟨true, 0, "", true, 1, "boom", false, 0, false⟩
        ⟨2025, 1, 1, 0, 0, 0, 0⟩ "whisper" "a.mp3").1 =
      Response.errorOut 500 ("FFmpeg processing failed: " ++ "boom") :=
  ((success_requires_transform_ok ⟨true, 0, "", true, 1, "boom", false, 0, false⟩
      ⟨2025, 1, 1, 0, 0, 0, 0⟩ "whisper" "a.mp3").2
    rfl rfl rfl rfl).1 (by decide)

/-- C7: exactly when the dynamic boost is positive the chain contains a
compression stage, its threshold is -25 plus a quarter of the boost, its
ratio is 2 plus a tenth of the boost, and its attack, release, makeup and
knee are the constants 10, 100, 2 and 2; any compression stage found in a
chain has exactly those parameters, so none exists when the boost is
zero. -/
theorem compressor_stage_params (p : Preset) :
    (0 < p.dynamic_boost →
      FilterStage.acompressor (-25 + p.dynamic_boost / 4)
        (2 + p.dynamic_boost / 10) 10 100 2 2 ∈ buildFilters p) ∧
    (∀ th r a rel m k, FilterStage.acompressor th r a rel m k ∈ buildFilters p →
      0 < p.dynamic_boost ∧ th = -25 + p.dynamic_boost / 4 ∧
      r = 2 + p.dynamic_boost / 10 ∧ a = 10 ∧ rel = 100 ∧ m = 2 ∧ k = 2) := by
  constructor
  · intro h
    simp only [buildFilters, List.mem_append, mem_if_nil]
    exact Or.inl (Or.inl (Or.inl (Or.inl (Or.inr ⟨h, List.Mem.head _⟩))))
  · intro th r a rel m k hmem
    simp only [buildFilters, List.mem_append, mem_if_nil, List.mem_map,
      List.mem_singleton, List.mem_cons, List.not_mem_nil, or_false] at hmem
    rcases hmem with ((((((⟨_, h⟩ | ⟨_, h⟩) | ⟨_, h⟩) | ⟨hc, h⟩) | ⟨band, hband, h⟩) | ⟨_, h⟩) | h) | h
    · exact FilterStage.noConfusion h
    · exact FilterStage.noConfusion h
    · exact FilterStage.noConfusion h
    · injection h with h1 h2 h3 h4 h5 h6
      exact ⟨hc, h1, h2, h3, h4, h5, h6⟩
    · exact FilterStage.noConfusion h
    · exact FilterStage.noConfusion h
    · exact FilterStage.noConfusion h
    · exact FilterStage.noConfusion h

/-- Witness for C7 at the whisper preset, whose dynamic boost is 8. -/
theorem compressor_stage_params_witness :
    FilterStage.acompressor (-25 + whisperPreset.dynamic_boost / 4)
      (2 + whisperPreset.dynamic_boost / 10) 10 100 2 2 ∈
        buildFilters whisperPreset :=
  (compressor_stage_params whisperPreset).1 (by decide)

/-- C8: building with an override map leaves the catalog state untouched
— the stored preset values after the call are the ones before — and the
produced chain is the one built from the overrides merged over a copy of
the base entry. -/
theorem overrides_do_not_mutate_catalog (catalog : List (String × Preset))
    (name : String) (o : Overrides) :
    (build_ffmpeg_filter catalog name (some o)).2 = catalog ∧
    (build_ffmpeg_filter catalog name (some o)).1 =
      (lookup catalog name).map (fun base => buildFilters (applyOverrides base o)) := by
  unfold build_ffmpeg_filter
  cases h : lookup catalog name <;> simp [h]

/-- C9, counterexample: two distinct requests — they differ in arrival
microsecond and in uploaded content — that arrive within the same
wall-clock second with the same original filename derive the same scratch
input location, so the derivation is not collision-free. -/
theorem timestamp_collision_same_second :
    (⟨⟨2025, 1, 1, 0, 0, 0, 0⟩, "a.mp3", [1]⟩ : UploadRequest) ≠
      ⟨⟨2025, 1, 1, 0, 0, 0, 500000⟩, "a.mp3", [2]⟩ ∧
    derivedInputPath ⟨⟨2025, 1, 1, 0, 0, 0, 0⟩, "a.mp3", [1]⟩ =
      derivedInputPath ⟨⟨2025, 1, 1, 0, 0, 0, 500000⟩, "a.mp3", [2]⟩ := by
  constructor <;> decide

/-- C9, amended: the derived scratch input locations of two requests whose
formatted timestamps have equal length coincide exactly when both the
second-granularity timestamps and the original filenames coincide —
uniqueness holds only at that granularity, and requests sharing a second
and a filename collide. -/
theorem input_path_unique_iff (r1 r2 : UploadRequest)
    (hlen : (strftimeCompact r1.now).length = (strftimeCompact r2.now).length) :
    derivedInputPath r1 = derivedInputPath r2 ↔
      (strftimeCompact r1.now = strftimeCompact r2.now ∧ r1.filename = r2.filename) :=
  inputPathFor_inj _ _ _ _ hlen

/-- Witness for C9, amended: two requests one second apart derive distinct
scratch input locations. -/
theorem input_path_unique_iff_witness :
    derivedInputPath ⟨⟨2025, 1, 1, 0, 0, 0, 0⟩, "a.mp3", [1]⟩ ≠
      derivedInputPath ⟨⟨2025, 1, 1, 0, 0, 1, 0⟩, "a.mp3", [1]⟩ := by
  intro h
  have := (input_path_unique_iff ⟨⟨2025, 1, 1, 0, 0, 0, 0⟩, "a.mp3", [1]⟩
    ⟨⟨2025, 1, 1, 0, 0, 1, 0⟩, "a.mp3", [1]⟩ (by decide)).mp h
  exact absurd this.1 (by decide)

/-- C10: the scratch input path interpolates the raw client filename, so
it is not the case that every derived path stays inside the scratch
directory: a filename made of parent-directory components resolves to
/tmp/etc/passwd, outside /tmp/audio_processing, while an ordinary
filename stays inside. -/
theorem raw_filename_escapes_scratch_dir :
    (¬ ∀ timestamp filename,
        insideScratch (inputPathFor timestamp filename) = true) ∧
    resolvePath (inputPathFor "20250101_000000" "../../../etc/passwd") =
      ["tmp", "etc", "passwd"] ∧
    insideScratch (inputPathFor "20250101_000000" "../../../etc/passwd") = false ∧
    insideScratch (inputPathFor "20250101_000000" "a.mp3") = true := by
  refine ⟨?_, by decide, by decide, by decide⟩
  intro hall
  exact absurd (hall "20250101_000000" "../../../etc/passwd") (by decide)

end AudioServer
